import Mathlib

/-!
Verification development for the MapDisplay3D backend
(`webapp/backend/main.py`, `webapp/backend/llm_provider.py`).

The interpretation pipeline of `interpret_command`, the rule-based
fallback cascade, the JSON extraction from model replies, the
`LLMProviderManager` state machine and the availability probes of the
Ollama/vLLM providers are shallowly embedded below.  Python regular
expressions are embedded through a small backtracking engine
(`matchRE`) that reproduces `re.search` semantics (leftmost match,
greedy/lazy priority ordering, capture groups); every pattern of the
source is transcribed literally into an `RE` syntax tree.  Machine
floats of the source only ever hold small decimal literals here, so
they are modelled by `ℚ`; the network is modelled by oracles
`String → Option HttpResp` (`none` = the request raised).
-/

/-! ## Python string helpers -/

/-- Python's `\s` / `str.strip` whitespace set (ASCII). -/
def isPyWs (c : Char) : Bool :=
  c == ' ' || c == '\t' || c == '\n' || c == '\r' || c == '\x0b' || c == '\x0c'

/-- `str.strip()` — drop whitespace from both ends. -/
def pyStrip (s : List Char) : List Char :=
  ((s.dropWhile isPyWs).reverse.dropWhile isPyWs).reverse

/-- `str.lower()` (ASCII range, which covers every command and provider
name appearing in the claims). -/
def pyLower (s : List Char) : List Char :=
  s.map Char.toLower

/-- `str.lower()` on `String`. -/
def pyLowerStr (s : String) : String :=
  String.mk (pyLower s.data)

/-! ## A backtracking regular-expression engine

`matchRE r s` returns every way `r` can match a prefix of `s`, as a
list of `(remaining suffix, captured groups)` pairs ordered by Python's
backtracking priority (first alternative first, greedy quantifiers
longest-first, lazy quantifiers shortest-first).  `re.search` then is:
take the first start position whose match list is non-empty, and that
list's head. -/

/-- Capture groups recorded during a match: group index paired with the
captured text.  The most recent capture of a group comes first. -/
abbrev Caps := List (Nat × List Char)

inductive RE where
  | eps
  | cls (p : Char → Bool)
  | seq (a b : RE)
  | alt (a b : RE)
  | quest (lazy : Bool) (a : RE)
  | star (lazy : Bool) (a : RE)
  | group (n : Nat) (a : RE)
  | eos

/-- Iterate a quantified sub-matcher.  Each iteration must consume at
least one character (true of every starred sub-pattern in the source),
so `fuel = length + 1` is enough. -/
def starLoop (g : List Char → List (List Char × Caps)) (lz : Bool) :
    Nat → List Char → List (List Char × Caps)
  | 0, s => [(s, [])]
  | f+1, s =>
    let one := (g s).filter (fun pr => pr.1.length < s.length)
    let more := one.flatMap (fun pr =>
      (starLoop g lz f pr.1).map (fun qr => (qr.1, qr.2 ++ pr.2)))
    if lz then (s, []) :: more else more ++ [(s, [])]

/-- All matches of `r` against a prefix of `s`, in priority order. -/
def matchRE : RE → List Char → List (List Char × Caps)
  | .eps, s => [(s, [])]
  | .cls p, s =>
    match s with
    | [] => []
    | c :: t => if p c then [(t, [])] else []
  | .seq a b, s =>
    (matchRE a s).flatMap (fun pr =>
      (matchRE b pr.1).map (fun qr => (qr.1, qr.2 ++ pr.2)))
  | .alt a b, s => matchRE a s ++ matchRE b s
  | .quest lz a, s =>
    if lz then (s, []) :: matchRE a s else matchRE a s ++ [(s, [])]
  | .star lz a, s => starLoop (matchRE a) lz (s.length + 1) s
  | .group n a, s =>
    (matchRE a s).map (fun pr =>
      (pr.1, (n, s.take (s.length - pr.1.length)) :: pr.2))
  | .eos, s =>
    match s with
    | [] => [([], [])]
    | ['\n'] => [(['\n'], [])]
    | _ => []

/-- `re.search`: try each start position left to right, return the
captures of the highest-priority match at the first position that
matches at all. -/
def reSearch (r : RE) : List Char → Option Caps
  | [] =>
    match matchRE r [] with
    | pr :: _ => some pr.2
    | [] => none
  | c :: t =>
    match matchRE r (c :: t) with
    | pr :: _ => some pr.2
    | [] => reSearch r t

/-- `m.group n` — Python reports the most recent capture of a group,
`None` (here `none`) when the group did not participate. -/
def capGroup (caps : Caps) (n : Nat) : Option (List Char) :=
  (List.find? (fun pr => pr.1 == n) caps).map (fun pr => pr.2)

/-! ### Pattern-building helpers -/

/-- A single literal character. -/
def chrRE (c : Char) : RE := .cls (fun x => x == c)

/-- A literal string of characters. -/
def litRE (s : String) : RE :=
  s.data.foldr (fun c r => .seq (chrRE c) r) .eps

/-- Greedy `X+` as `X` then greedy `X*`. -/
def plusG (a : RE) : RE := .seq a (.star false a)

/-- Lazy `X+?` as `X` then lazy `X*?`. -/
def plusL (a : RE) : RE := .seq a (.star true a)

/-- `\d`. -/
def clsDigit : RE := .cls Char.isDigit

/-- `\s`. -/
def clsWs : RE := .cls isPyWs

/-- `[0-9.+-]`. -/
def clsNum : RE := .cls (fun c => c.isDigit || c == '.' || c == '+' || c == '-')

/-- `[:=\s]`. -/
def clsColonEqWs : RE := .cls (fun c => c == ':' || c == '=' || isPyWs c)

/-- `[a-zA-Z\s]`. -/
def clsAlphaWs : RE := .cls (fun c => c.isAlpha || isPyWs c)

/-- `.` without `re.S` (anything but a newline). -/
def clsDot : RE := .cls (fun c => c != '\n')

/-- `.` with `re.S`. -/
def clsDotAll : RE := .cls (fun _ => true)

/-- `\d+(?:\.\d+)?` — the unsigned decimal used by the zoom / trip /
camera matchers. -/
def reDecimal : RE :=
  .seq (plusG clsDigit) (.quest false (.seq (chrRE '.') (plusG clsDigit)))

/-! ## The regex patterns of `interpret_command` (main.py)

Each definition transcribes one Python pattern literally, in the order
the source evaluates them. -/

/-- `(\[.*\])` with `re.S` — the JSON extraction pattern (main.py:502). -/
def pJsonArr : RE :=
  .group 1 (.seq (chrRE '[') (.seq (.star false clsDotAll) (chrRE ']')))

/-- `zoom to (\d+(?:\.\d+)?)x` (main.py:527). -/
def pZoomTo : RE :=
  .seq (litRE "zoom to ") (.seq (.group 1 reDecimal) (chrRE 'x'))

/-- `zoom (in|out) to (\d+(?:\.\d+)?)x` (main.py:534). -/
def pZoomInOutTo : RE :=
  .seq (litRE "zoom ")
    (.seq (.group 1 (.alt (litRE "in") (litRE "out")))
      (.seq (litRE " to ") (.seq (.group 2 reDecimal) (chrRE 'x'))))

/-- `zoom (in|out) by (\d+(?:\.\d+)?)x` (main.py:540). -/
def pZoomInOutBy : RE :=
  .seq (litRE "zoom ")
    (.seq (.group 1 (.alt (litRE "in") (litRE "out")))
      (.seq (litRE " by ") (.seq (.group 2 reDecimal) (chrRE 'x'))))

/-- `zoom\s+out(?:\s+to\s+india)?$` (main.py:548). -/
def pZoomOut : RE :=
  .seq (litRE "zoom")
    (.seq (plusG clsWs)
      (.seq (litRE "out")
        (.seq (.quest false
          (.seq (plusG clsWs) (.seq (litRE "to") (.seq (plusG clsWs) (litRE "india")))))
          .eos)))

/-- `show\s+full\s+map` (main.py:548). -/
def pShowFullMap : RE :=
  .seq (litRE "show")
    (.seq (plusG clsWs) (.seq (litRE "full") (.seq (plusG clsWs) (litRE "map"))))

/-- `reset` (main.py:553). -/
def pReset : RE := litRE "reset"

/-- `zoom to lat[:=\s]*([0-9.+-]+)\s*,?\s*lon[:=\s]*([0-9.+-]+)` (main.py:558). -/
def pZoomLatLon : RE :=
  .seq (litRE "zoom to lat")
    (.seq (.star false clsColonEqWs)
      (.seq (.group 1 (plusG clsNum))
        (.seq (.star false clsWs)
          (.seq (.quest false (chrRE ','))
            (.seq (.star false clsWs)
              (.seq (litRE "lon")
                (.seq (.star false clsColonEqWs) (.group 2 (plusG clsNum)))))))))

/-- `goto station (.+)` (main.py:565). -/
def pGotoStation : RE :=
  .seq (litRE "goto station ") (.group 1 (plusG clsDot))

/-- `(?:start\s+)?(?:trip|journey)\s+from\s+([a-zA-Z\s]+?)\s+to\s+([a-zA-Z\s]+?)(?:\s+at\s+(\d+(?:\.\d+)?)x?\s*speed)?(?:\s|$)` (main.py:573). -/
def pTrip : RE :=
  .seq (.quest false (.seq (litRE "start") (plusG clsWs)))
    (.seq (.alt (litRE "trip") (litRE "journey"))
      (.seq (plusG clsWs)
        (.seq (litRE "from")
          (.seq (plusG clsWs)
            (.seq (.group 1 (plusL clsAlphaWs))
              (.seq (plusG clsWs)
                (.seq (litRE "to")
                  (.seq (plusG clsWs)
                    (.seq (.group 2 (plusL clsAlphaWs))
                      (.seq (.quest false
                        (.seq (plusG clsWs)
                          (.seq (litRE "at")
                            (.seq (plusG clsWs)
                              (.seq (.group 3 reDecimal)
                                (.seq (.quest false (chrRE 'x'))
                                  (.seq (.star false clsWs) (litRE "speed"))))))))
                        (.alt clsWs .eos)))))))))))

/-- `move\s+camera\s+(left|right|up|down|forward|backward)(?:\s+by\s+)?(\d+(?:\.\d+)?)?(?:\s+units?)?` (main.py:588). -/
def pMoveCamera : RE :=
  .seq (litRE "move")
    (.seq (plusG clsWs)
      (.seq (litRE "camera")
        (.seq (plusG clsWs)
          (.seq (.group 1 (.alt (litRE "left") (.alt (litRE "right")
              (.alt (litRE "up") (.alt (litRE "down")
                (.alt (litRE "forward") (litRE "backward")))))))
            (.seq (.quest false (.seq (plusG clsWs) (.seq (litRE "by") (plusG clsWs))))
              (.seq (.quest false (.group 2 reDecimal))
                (.quest false
                  (.seq (plusG clsWs)
                    (.seq (litRE "unit") (.quest false (chrRE 's')))))))))))

/-- `(?:move\s+camera\s+to|camera\s+position)\s+x[:=\s]*([0-9.+-]+)\s*y[:=\s]*([0-9.+-]+)\s*z[:=\s]*([0-9.+-]+)` (main.py:604). -/
def pCameraOffset : RE :=
  .seq (.alt
      (.seq (litRE "move")
        (.seq (plusG clsWs) (.seq (litRE "camera") (.seq (plusG clsWs) (litRE "to")))))
      (.seq (litRE "camera") (.seq (plusG clsWs) (litRE "position"))))
    (.seq (plusG clsWs)
      (.seq (chrRE 'x')
        (.seq (.star false clsColonEqWs)
          (.seq (.group 1 (plusG clsNum))
            (.seq (.star false clsWs)
              (.seq (chrRE 'y')
                (.seq (.star false clsColonEqWs)
                  (.seq (.group 2 (plusG clsNum))
                    (.seq (.star false clsWs)
                      (.seq (chrRE 'z')
                        (.seq (.star false clsColonEqWs)
                          (.group 3 (plusG clsNum)))))))))))))

/-- `(?:goto|move\s+(?:to|camera\s+to))\s+(?:location\s+)?(?:lat\s*)?([0-9.+-]+)\s*,?\s*(?:lon\s*)?([0-9.+-]+)` (main.py:618). -/
def pGotoLocation : RE :=
  .seq (.alt (litRE "goto")
      (.seq (litRE "move")
        (.seq (plusG clsWs)
          (.alt (litRE "to")
            (.seq (litRE "camera") (.seq (plusG clsWs) (litRE "to")))))))
    (.seq (plusG clsWs)
      (.seq (.quest false (.seq (litRE "location") (plusG clsWs)))
        (.seq (.quest false (.seq (litRE "lat") (.star false clsWs)))
          (.seq (.group 1 (plusG clsNum))
            (.seq (.star false clsWs)
              (.seq (.quest false (chrRE ','))
                (.seq (.star false clsWs)
                  (.seq (.quest false (.seq (litRE "lon") (.star false clsWs)))
                    (.group 2 (plusG clsNum))))))))))

/-- `([0-9.+-]+)\s*,\s*([0-9.+-]+)` (main.py:632). -/
def pBareCoords : RE :=
  .seq (.group 1 (plusG clsNum))
    (.seq (.star false clsWs)
      (.seq (chrRE ',') (.seq (.star false clsWs) (.group 2 (plusG clsNum)))))

/-! ## Python `float()` on the captured groups

Captured numeric groups only ever contain characters from `[0-9.+-]`,
so `float()` is modelled on that alphabet: an optional leading sign,
then digits with at most one decimal point and at least one digit;
anything else raises `ValueError` (here `none`). -/

/-- Digits to a natural number. -/
def digitsToNat (ds : List Char) : Nat :=
  ds.foldl (fun n c => n * 10 + (c.toNat - 48)) 0

/-- Unsigned part of `float()`. -/
def pyFloatUnsigned (s : List Char) : Option ℚ :=
  let intPart := s.takeWhile Char.isDigit
  let rest := s.dropWhile Char.isDigit
  match rest with
  | [] => if intPart.isEmpty then none else some (digitsToNat intPart : ℚ)
  | '.' :: frac =>
    if frac.all Char.isDigit && !(intPart.isEmpty && frac.isEmpty) then
      some ((digitsToNat intPart : ℚ) + (digitsToNat frac : ℚ) / (10 : ℚ) ^ frac.length)
    else none
  | _ => none

/-- Python `float(str)` restricted to the `[0-9.+-]` alphabet. -/
def pyFloat (s : List Char) : Option ℚ :=
  match s with
  | '+' :: r => pyFloatUnsigned r
  | '-' :: r => (pyFloatUnsigned r).map (fun q => -q)
  | r => pyFloatUnsigned r

/-! ## JSON values and `json.loads`

`json.loads` is modelled by a recursive-descent parser over the JSON
grammar (numbers as `ℚ`; the `NaN`/`Infinity` extensions Python also
accepts are outside the replies the claims concern and are rejected
here). -/

inductive Json where
  | null
  | bool (b : Bool)
  | num (q : ℚ)
  | str (s : String)
  | arr (xs : List Json)
  | obj (fields : List (String × Json))

/-- `true` exactly on JSON arrays. -/
def Json.isArr : Json → Bool
  | .arr _ => true
  | _ => false

/-- JSON insignificant whitespace. -/
def jIsWs (c : Char) : Bool :=
  c == ' ' || c == '\t' || c == '\n' || c == '\r'

/-- Skip insignificant whitespace. -/
def jSkip (s : List Char) : List Char := s.dropWhile jIsWs

/-- Open and close brace characters. -/
def braceOpen : Char := Char.ofNat 123

/-- Close brace. -/
def braceClose : Char := Char.ofNat 125

/-- Optional exponent part of a JSON number. -/
def parseJNumExp (sign q : ℚ) (r : List Char) : Option (ℚ × List Char) :=
  let (esign, r1) : Bool × List Char :=
    match r with
    | '+' :: t => (true, t)
    | '-' :: t => (false, t)
    | t => (true, t)
  let es := r1.takeWhile Char.isDigit
  if es.isEmpty then none
  else
    let k := digitsToNat es
    let q' := if esign then q * (10 : ℚ) ^ k else q / (10 : ℚ) ^ k
    some (sign * q', r1.dropWhile Char.isDigit)

/-- Fraction and exponent parts of a JSON number. -/
def parseJNumFrac (sign intPart : ℚ) (r : List Char) : Option (ℚ × List Char) :=
  let (withFrac, r2) : ℚ × List Char :=
    match r with
    | '.' :: r1 =>
      let fs := r1.takeWhile Char.isDigit
      if fs.isEmpty then (intPart, r)
      else (intPart + (digitsToNat fs : ℚ) / (10 : ℚ) ^ fs.length,
            r1.dropWhile Char.isDigit)
    | _ => (intPart, r)
  match r2 with
  | 'e' :: r3 => parseJNumExp sign withFrac r3
  | 'E' :: r3 => parseJNumExp sign withFrac r3
  | _ =>
    match r with
    | '.' :: r1 =>
      if (r1.takeWhile Char.isDigit).isEmpty then none
      else some (sign * withFrac, r2)
    | _ => some (sign * withFrac, r2)

/-- A JSON number: `-?(0|[1-9]\d*)(\.\d+)?([eE][+-]?\d+)?`. -/
def parseJNum (s : List Char) : Option (ℚ × List Char) :=
  let (sign, r0) : ℚ × List Char :=
    match s with
    | '-' :: r => (-1, r)
    | r => (1, r)
  match r0 with
  | [] => none
  | d :: _ =>
    if !d.isDigit then none
    else if d == '0' then
      parseJNumFrac sign 0 (r0.drop 1)
    else
      parseJNumFrac sign (digitsToNat (r0.takeWhile Char.isDigit) : ℚ)
        (r0.dropWhile Char.isDigit)

/-- Hex digit value. -/
def hexVal (c : Char) : Option Nat :=
  if c.isDigit then some (c.toNat - 48)
  else if 'a' ≤ c && c ≤ 'f' then some (c.toNat - 87)
  else if 'A' ≤ c && c ≤ 'F' then some (c.toNat - 70)
  else none

mutual

/-- Body of a JSON string after the opening quote; returns the decoded
characters and the rest after the closing quote. -/
def parseJStrBody : Nat → List Char → Option (List Char × List Char)
  | 0, _ => none
  | f+1, s =>
    match s with
    | [] => none
    | c :: r =>
      if c == '"' then some ([], r)
      else if c == '\\' then
        match r with
        | [] => none
        | e :: r2 =>
          if e == 'u' then
            match r2 with
            | h1 :: h2 :: h3 :: h4 :: r3 =>
              match hexVal h1, hexVal h2, hexVal h3, hexVal h4 with
              | some v1, some v2, some v3, some v4 =>
                (parseJStrBody f r3).map (fun p =>
                  (Char.ofNat (((v1 * 16 + v2) * 16 + v3) * 16 + v4) :: p.1, p.2))
              | _, _, _, _ => none
            | _ => none
          else
            let esc : Option Char :=
              if e == '"' then some '"'
              else if e == '\\' then some '\\'
              else if e == '/' then some '/'
              else if e == 'b' then some (Char.ofNat 8)
              else if e == 'f' then some (Char.ofNat 12)
              else if e == 'n' then some '\n'
              else if e == 'r' then some '\r'
              else if e == 't' then some '\t'
              else none
            match esc with
            | some ec => (parseJStrBody f r2).map (fun p => (ec :: p.1, p.2))
            | none => none
      else if c.toNat < 32 then none
      else (parseJStrBody f r).map (fun p => (c :: p.1, p.2))

/-- One JSON value (with leading whitespace skipped). -/
def parseJVal : Nat → List Char → Option (Json × List Char)
  | 0, _ => none
  | f+1, s =>
    let s := jSkip s
    if s.take 4 = "null".data then some (.null, s.drop 4)
    else if s.take 4 = "true".data then some (.bool true, s.drop 4)
    else if s.take 5 = "false".data then some (.bool false, s.drop 5)
    else
      match s with
      | [] => none
      | c :: r =>
        if c == '"' then
          (parseJStrBody f r).map (fun p => (Json.str (String.mk p.1), p.2))
        else if c == '[' then
          match jSkip r with
          | ']' :: r2 => some (.arr [], r2)
          | _ => (parseArrItems f r).map (fun p => (Json.arr p.1, p.2))
        else if c == braceOpen then
          match jSkip r with
          | d :: r2 =>
            if d == braceClose then some (.obj [], r2)
            else (parseObjItems f r).map (fun p => (Json.obj p.1, p.2))
          | [] => none
        else (parseJNum (c :: r)).map (fun p => (Json.num p.1, p.2))

/-- Comma-separated array items up to the closing `]`. -/
def parseArrItems : Nat → List Char → Option (List Json × List Char)
  | 0, _ => none
  | f+1, s =>
    match parseJVal f s with
    | none => none
    | some (v, r) =>
      match jSkip r with
      | ',' :: r2 => (parseArrItems f r2).map (fun p => (v :: p.1, p.2))
      | ']' :: r2 => some ([v], r2)
      | _ => none

/-- Comma-separated `"key": value` pairs up to the closing brace. -/
def parseObjItems : Nat → List Char → Option (List (String × Json) × List Char)
  | 0, _ => none
  | f+1, s =>
    match jSkip s with
    | '"' :: r =>
      match parseJStrBody f r with
      | none => none
      | some (k, r1) =>
        match jSkip r1 with
        | ':' :: r2 =>
          match parseJVal f r2 with
          | none => none
          | some (v, r3) =>
            match jSkip r3 with
            | ',' :: r4 => (parseObjItems f r4).map (fun p =>
                ((String.mk k, v) :: p.1, p.2))
            | d :: r4 =>
              if d == braceClose then some ([(String.mk k, v)], r4) else none
            | [] => none
        | _ => none
    | _ => none

end

/-- `json.loads`: parse one value and require only whitespace after it. -/
def pyJsonLoads (s : List Char) : Option Json :=
  match parseJVal (2 * s.length + 2) s with
  | some (v, r) => if jSkip r = [] then some v else none
  | none => none

/-! ## JSON extraction from a model reply (main.py:500-504) -/

/-- `m = re.search(r"(\[.*\])", content, re.S); json_text = m.group(1) if m else content`. -/
def extractJson (content : List Char) : List Char :=
  match reSearch pJsonArr content with
  | some caps => (capGroup caps 1).getD content
  | none => content

/-! ## The rule-based fallback cascade (main.py:520-639)

Every branch of the cascade builds one `JSONResponse` body.  A body is
the dictionary `interpret_command` returns: the `actions` value (an
arbitrary JSON value — the LLM path stores `json.loads`' result there
unvalidated), and the optional `method` / `provider` / `error` keys. -/

structure RespBody where
  actions : Json
  method : Option String := none
  provider : Option String := none
  error : Option String := none

/-- The exceptions the cascade itself can raise: `float()` on a
non-numeric capture (`ValueError`), `1.0/0.0` (`ZeroDivisionError`). -/
inductive PyErr where
  | valueError
  | zeroDivisionError
deriving DecidableEq

/-- `float(m.group n)` for a group that participates whenever the
pattern matches. -/
def reqFloat (caps : Caps) (n : Nat) : Except PyErr ℚ :=
  match capGroup caps n with
  | some g =>
    match pyFloat g with
    | some v => .ok v
    | none => .error .valueError
  | none => .error .valueError

/-- `float(m.group n) if m.group n else d` for an optional group. -/
def optFloatD (caps : Caps) (n : Nat) (d : ℚ) : Except PyErr ℚ :=
  match capGroup caps n with
  | some g =>
    match pyFloat g with
    | some v => .ok v
    | none => .error .valueError
  | none => .ok d

/-- A one-action rules result. -/
def ruleResp (a : Json) : RespBody :=
  { actions := .arr [a], method := some "rules" }

/-- The `{"actions": [], "error": "Could not parse command"}` body of
the unrecognized branch (main.py:639) — note it carries no `method`
key. -/
def unparsedResp : RespBody :=
  { actions := .arr [], error := some "Could not parse command" }

/-- Fallback branch 12: bare `NUM, NUM` (main.py:632). -/
def rulesBareCoords (t : List Char) : Except PyErr RespBody :=
  match reSearch pBareCoords t with
  | some caps => do
    let lat ← reqFloat caps 1
    let lon ← reqFloat caps 2
    .ok (ruleResp (.obj [("type", .str "center"), ("lat", .num lat), ("lon", .num lon)]))
  | none => .ok unparsedResp

/-- Branch 11: goto location (main.py:618). -/
def rulesGotoLocation (t : List Char) : Except PyErr RespBody :=
  match reSearch pGotoLocation t with
  | some caps => do
    let lat ← reqFloat caps 1
    let lon ← reqFloat caps 2
    .ok (ruleResp (.obj [("type", .str "goto_location"), ("lat", .num lat),
      ("lon", .num lon), ("altitude", .num 50), ("duration", .num 2000)]))
  | none => rulesBareCoords t

/-- Branch 10: camera offset (main.py:604). -/
def rulesCameraOffset (t : List Char) : Except PyErr RespBody :=
  match reSearch pCameraOffset t with
  | some caps => do
    let x ← reqFloat caps 1
    let y ← reqFloat caps 2
    let z ← reqFloat caps 3
    .ok (ruleResp (.obj [("type", .str "camera_offset"), ("x", .num x),
      ("y", .num y), ("z", .num z), ("duration", .num 2000)]))
  | none => rulesGotoLocation t

/-- Branch 9: camera movement (main.py:588). -/
def rulesMoveCamera (t : List Char) : Except PyErr RespBody :=
  match reSearch pMoveCamera t with
  | some caps => do
    let direction := (capGroup caps 1).getD []
    let distance ← optFloatD caps 2 10
    .ok (ruleResp (.obj [("type", .str "move_camera"),
      ("direction", .str (String.mk direction)), ("distance", .num distance),
      ("duration", .num 2000)]))
  | none => rulesCameraOffset t

/-- Branch 8: start-trip (main.py:573). -/
def rulesTrip (t : List Char) : Except PyErr RespBody :=
  match reSearch pTrip t with
  | some caps => do
    let source := pyStrip ((capGroup caps 1).getD [])
    let destination := pyStrip ((capGroup caps 2).getD [])
    let speed ← optFloatD caps 3 3
    .ok (ruleResp (.obj [("type", .str "start_trip"),
      ("source", .str (String.mk source)),
      ("destination", .str (String.mk destination)), ("speed", .num speed)]))
  | none => rulesMoveCamera t

/-- Branch 7: goto station (main.py:565). -/
def rulesGotoStation (t : List Char) : Except PyErr RespBody :=
  match reSearch pGotoStation t with
  | some caps =>
    let name := pyStrip ((capGroup caps 1).getD [])
    .ok (ruleResp (.obj [("type", .str "goto_station"), ("name", .str (String.mk name))]))
  | none => rulesTrip t

/-- Branch 6: zoom to lat/lon (main.py:558). -/
def rulesZoomLatLon (t : List Char) : Except PyErr RespBody :=
  match reSearch pZoomLatLon t with
  | some caps => do
    let lat ← reqFloat caps 1
    let lon ← reqFloat caps 2
    .ok (ruleResp (.obj [("type", .str "center"), ("lat", .num lat), ("lon", .num lon)]))
  | none => rulesGotoStation t

/-- Branch 5: reset (main.py:553). -/
def rulesReset (t : List Char) : Except PyErr RespBody :=
  match reSearch pReset t with
  | some _ => .ok (ruleResp (.obj [("type", .str "reset")]))
  | none => rulesZoomLatLon t

/-- Branch 4: zoom out / show full map (main.py:548). -/
def rulesZoomOut (t : List Char) : Except PyErr RespBody :=
  match reSearch pZoomOut t with
  | some _ => .ok (ruleResp (.obj [("type", .str "zoom_out")]))
  | none =>
    match reSearch pShowFullMap t with
    | some _ => .ok (ruleResp (.obj [("type", .str "zoom_out")]))
    | none => rulesReset t

/-- Branch 3: zoom in/out by (main.py:540-545); `1.0/val` raises
`ZeroDivisionError` when `val = 0`. -/
def rulesZoomBy (t : List Char) : Except PyErr RespBody :=
  match reSearch pZoomInOutBy t with
  | some caps => do
    let dirc := (capGroup caps 1).getD []
    let val ← reqFloat caps 2
    let factor ←
      if dirc = "in".data then .ok val
      else if val = 0 then (.error .zeroDivisionError : Except PyErr ℚ)
      else .ok (1 / val)
    .ok (ruleResp (.obj [("type", .str "zoom"), ("mode", .str "by"), ("value", .num factor)]))
  | none => rulesZoomOut t

/-- Branch 2: zoom in/out to (main.py:534). -/
def rulesZoomInOutTo (t : List Char) : Except PyErr RespBody :=
  match reSearch pZoomInOutTo t with
  | some caps => do
    let val ← reqFloat caps 2
    .ok (ruleResp (.obj [("type", .str "zoom"), ("mode", .str "to"), ("value", .num val)]))
  | none => rulesZoomBy t

/-- The rule cascade, entered at branch 1 (`zoom to Nx`, main.py:527);
input is the lower-cased trimmed command text. -/
def rulesFallback (t : List Char) : Except PyErr RespBody :=
  match reSearch pZoomTo t with
  | some caps => do
    let val ← reqFloat caps 1
    .ok (ruleResp (.obj [("type", .str "zoom"), ("mode", .str "to"), ("value", .num val)]))
  | none => rulesZoomInOutTo t

/-! ## The provider manager (llm_provider.py:209-277) -/

/-- The registry keys fixed at construction (llm_provider.py:214-219). -/
def providerNames : List String := ["openai", "ollama", "vllm", "anthropic"]

/-- The mutable manager state: the single active selection and the
fallback flag (the provider registry itself is fixed at startup). -/
structure ManagerState where
  active : String
  fallback : Bool
deriving DecidableEq

/-- The slice of the startup configuration the manager constructor
reads: `config['llm']['provider']` and `config['llm']['fallback_to_rules']`
(`none` = key absent). -/
structure InitConfig where
  llmProvider : Option String := none
  llmFallback : Option Bool := none

/-- `LLMProviderManager.__init__` (llm_provider.py:212-224):
`active_provider_name = llm_config.get('provider', 'openai')`,
`fallback_to_rules = llm_config.get('fallback_to_rules', True)`. -/
def managerInit (cfg : InitConfig) : ManagerState :=
  { active := cfg.llmProvider.getD "openai"
    fallback := cfg.llmFallback.getD true }

/-- `set_active_provider` (llm_provider.py:235-248).  Availability of a
provider at the moment of the call is an oracle `String → Bool`.
Returns the success flag and the state after the call. -/
def setActiveProvider (st : ManagerState) (avail : String → Bool)
    (name : String) : Bool × ManagerState :=
  if name ∉ providerNames then (false, st)
  else if !avail name then (false, st)
  else (true, { st with active := name })

/-- The manager states reachable from a given startup configuration by
any sequence of `set_active_provider` calls (each call seeing an
arbitrary availability snapshot). -/
inductive ReachableFrom (cfg : InitConfig) : ManagerState → Prop where
  | init : ReachableFrom cfg (managerInit cfg)
  | step (st : ManagerState) (avail : String → Bool) (name : String) :
      ReachableFrom cfg st → ReachableFrom cfg (setActiveProvider st avail name).2

/-- `get_active_provider` (llm_provider.py:228-233): raises `ValueError`
when the active name is not registered. -/
def getActiveCheck (st : ManagerState) : Except String Unit :=
  if st.active ∈ providerNames then .ok ()
  else .error ("Unknown provider: " ++ st.active)

/-- `LLMProviderManager.generate` (llm_provider.py:266-273): re-check
availability of the active provider, then delegate.  The provider's own
`generate` is an oracle `gen` (`.error` = the transport raised). -/
def managerGenerate (st : ManagerState) (avail : String → Bool)
    (gen : Except String (List Char)) : Except String (List Char) :=
  match getActiveCheck st with
  | .error e => .error e
  | .ok _ =>
    if avail st.active then gen
    else .error ("Active provider " ++ st.active ++ " is not available")

/-! ## `interpret_command` (main.py:461-639) -/

/-- The observable outcome of one `interpret_command` request: a
`JSONResponse`, a raised `HTTPException`, or an uncaught Python
exception escaping the rules section. -/
inductive InterpretResult where
  | response (status : Nat) (body : RespBody)
  | httpError (status : Nat) (detail : String)
  | pyExc (e : PyErr)

/-- The message of the `json.loads` failure absorbed by the handler. -/
def jsonDecodeErrorMsg : String := "JSONDecodeError"

/-- The `try` block of `interpret_command` (main.py:475-511):
`.ok (some body)` = the LLM path returned, `.ok none` = the active
provider reported unavailable (fall out of the `try`), `.error` = an
exception reached the `except` handler.  The fixed instruction prompt
does not influence the oracle-modelled reply, so it is not carried. -/
def llmAttempt (st : ManagerState) (avail : String → Bool)
    (gen : Except String (List Char)) : Except String (Option RespBody) :=
  match getActiveCheck st with
  | .error e => .error e
  | .ok _ =>
    if avail st.active then
      match managerGenerate st avail gen with
      | .error e => .error e
      | .ok content =>
        match pyJsonLoads (extractJson content) with
        | some actions =>
          .ok (some { actions := actions, method := some "llm", provider := some st.active })
        | none => .error jsonDecodeErrorMsg
    else .ok none

/-- Run the rules section on the stripped text (main.py:521-523 computes
`lower = text.lower()`); an exception raised there escapes uncaught. -/
def runRules (rulesF : List Char → Except PyErr RespBody)
    (t : List Char) : InterpretResult :=
  match rulesF (pyLower t) with
  | .ok body => .response 200 body
  | .error e => .pyExc e

/-- `interpret_command`, parameterised by the rules section so that
"the cascade was never evaluated" is expressible (main.py:461-639):
strip the text, attempt the LLM path, and on an absorbed exception
either raise `HTTPException(500)` (fallback disabled) or fall through
to the rules section. -/
def interpretCore (rulesF : List Char → Except PyErr RespBody)
    (st : ManagerState) (avail : String → Bool)
    (gen : Except String (List Char)) (text : List Char) : InterpretResult :=
  let t := pyStrip text
  match llmAttempt st avail gen with
  | .ok (some body) => .response 200 body
  | .ok none => runRules rulesF t
  | .error e =>
    if st.fallback then runRules rulesF t
    else .httpError 500 ("LLM parsing failed: " ++ e)

/-- The endpoint with the actual rule cascade plugged in. -/
def interpret_command (st : ManagerState) (avail : String → Bool)
    (gen : Except String (List Char)) (text : List Char) : InterpretResult :=
  interpretCore rulesFallback st avail gen text

/-! ## Availability probes (llm_provider.py:74-141) -/

/-- An HTTP response as the probes observe it. -/
structure HttpResp where
  status : Nat
deriving DecidableEq

/-- Position of the last occurrence of `sep` in `s`, if any. -/
def lastSepIdx (sep s : List Char) : Option Nat :=
  ((List.range (s.length + 1)).filter (fun i => sep.isPrefixOf (s.drop i))).getLast?

/-- `s.rsplit(sep, 1)[0]`: the part before the last occurrence of `sep`
(the whole string when `sep` does not occur). -/
def rsplitBefore (sep s : List Char) : List Char :=
  match lastSepIdx sep s with
  | some i => s.take i
  | none => s

/-- The URL `OllamaProvider.is_available` probes (llm_provider.py:77-79):
`api_url.rsplit('/api/', 1)[0] + "/api/tags"`. -/
def ollamaTagsUrl (apiUrl : Option String) : String :=
  let u := apiUrl.getD "http://localhost:11434/api/chat"
  String.mk (rsplitBefore "/api/".data u.data) ++ "/api/tags"

/-- `OllamaProvider.is_available` (llm_provider.py:74-82): GET the tags
URL with a 2s timeout; `none` = the request raised. -/
def ollamaIsAvailable (apiUrl : Option String)
    (get : String → Option HttpResp) : Bool :=
  match get (ollamaTagsUrl apiUrl) with
  | some r => r.status == 200
  | none => false

/-- The health URL `VLLMProvider.is_available` probes first
(llm_provider.py:124): `api_url.rsplit('/v1/', 1)[0] + '/health'`. -/
def vllmHealthUrl (u : String) : String :=
  String.mk (rsplitBefore "/v1/".data u.data) ++ "/health"

/-- `VLLMProvider.is_available` (llm_provider.py:117-141): no URL →
false; GET `/health` → available iff 200; if that GET raises, POST one
tiny chat request to the configured URL and accept 200/400/422; if that
also raises → false. -/
def vllmIsAvailable (apiUrl : Option String)
    (get post : String → Option HttpResp) : Bool :=
  let u := apiUrl.getD ""
  if u = "" then false
  else
    match get (vllmHealthUrl u) with
    | some r => r.status == 200
    | none =>
      match post u with
      | some r => r.status == 200 || r.status == 400 || r.status == 422
      | none => false

/-! ## The switch-provider endpoint (main.py:178-199) -/

/-- The JSON body and status the endpoint answers with. -/
structure SwitchResp where
  status : Nat
  success : Bool
  provider : Option String
  message : Option String
  error : Option String
deriving DecidableEq

/-- `switch_llm_provider` (main.py:178-199): lower-case the requested
name, delegate to `set_active_provider`, answer 200 on success and 400
on failure.  Returns the response and the manager state after the
request. -/
def switch_llm_provider (st : ManagerState) (avail : String → Bool)
    (reqProvider : String) : SwitchResp × ManagerState :=
  let provider_name := pyLowerStr reqProvider
  let r := setActiveProvider st avail provider_name
  if r.1 then
    ({ status := 200, success := true, provider := some provider_name,
       message := some ("Switched to " ++ provider_name ++ " provider"),
       error := none }, r.2)
  else
    ({ status := 400, success := false, provider := none, message := none,
       error := some ("Provider " ++ provider_name ++ " is not available or not configured") },
     r.2)

/-! ## The spec's balanced-bracket extraction

The specification describes the JSON extraction as "a balanced-bracket
scan that skips over nested arrays/objects".  The following definition
renders those words (it is NOT a translation of the source — the source
uses the single regex `(\[.*\])`); claim C1 compares the two. -/

/-- Scan from an opening `[`, tracking the nesting depth of square and
curly brackets; return the prefix up to the bracket that closes the
initial `[`. -/
def balancedTake : List Char → Nat → List Char → Option (List Char)
  | [], _, _ => none
  | c :: t, depth, acc =>
    if c == '[' || c == braceOpen then balancedTake t (depth + 1) (c :: acc)
    else if c == ']' || c == braceClose then
      match depth with
      | 0 => none
      | 1 => if c == ']' then some (c :: acc).reverse else none
      | d + 2 => balancedTake t (d + 1) (c :: acc)
    else balancedTake t depth (c :: acc)

/-- Modelled from the spec: the first top-level JSON array substring of
the reply, found by a balanced-bracket scan. -/
def specFirstJsonArray : List Char → Option (List Char)
  | [] => none
  | c :: t =>
    if c == '[' then
      match balancedTake (c :: t) 0 [] with
      | some chunk => some chunk
      | none => specFirstJsonArray t
    else specFirstJsonArray t

/-! ## Helper lemmas -/

/-- On success, `set_active_provider` stored exactly the requested name,
and that name is registered. -/
theorem setActiveProvider_success (st : ManagerState) (avail : String → Bool)
    (name : String) (h : (setActiveProvider st avail name).1 = true) :
    (setActiveProvider st avail name).2 = { st with active := name }
    ∧ name ∈ providerNames := by
  by_cases hm : name ∈ providerNames
  · by_cases ha : avail name = true
    · simp [setActiveProvider, hm, ha]
    · simp [setActiveProvider, hm, ha] at h
  · simp [setActiveProvider, hm] at h

/-- Every registered provider name is its own lower-casing. -/
theorem providerNames_lowercase (n : String) (h : n ∈ providerNames) :
    pyLowerStr n = n := by
  simp only [providerNames, List.mem_cons, List.mem_singleton] at h
  rcases h with rfl | rfl | rfl | rfl | h <;> first | decide | cases h

/-! ## C6 — switch fails closed -/

/-- C6: `switch(name)` with an unregistered name, or with a target whose
availability probe answers false at the moment of the call, returns
failure and leaves the whole manager state unchanged; only on success
does it replace the active name (and nothing else). -/
theorem c6_switch_fails_closed (st : ManagerState) (avail : String → Bool)
    (name : String) :
    ((name ∉ providerNames ∨ avail name = false) →
      setActiveProvider st avail name = (false, st))
    ∧ (name ∈ providerNames → avail name = true →
      setActiveProvider st avail name = (true, { st with active := name })) := by
  constructor
  · rintro (h | h)
    · simp [setActiveProvider, h]
    · by_cases hm : name ∈ providerNames <;> simp [setActiveProvider, hm, h]
  · intro h1 h2
    simp [setActiveProvider, h1, h2]

/-- Witness for C6: switching to the unregistered "gpt5" fails and
keeps the state; switching to the available "ollama" succeeds and only
replaces the active name. -/
theorem c6_switch_fails_closed_witness :
    setActiveProvider { active := "openai", fallback := true } (fun _ => false) "gpt5"
      = (false, { active := "openai", fallback := true })
    ∧ setActiveProvider { active := "openai", fallback := true } (fun _ => true) "ollama"
      = (true, { active := "ollama", fallback := true }) :=
  ⟨(c6_switch_fails_closed _ _ _).1 (Or.inl (by decide)),
   (c6_switch_fails_closed _ _ _).2 (by decide) rfl⟩

/-! ## C7 — the active name is registered in every reachable state -/

/-- C7 counterexample: the constructor copies `config['llm']['provider']`
into the active selection without validating it, so a configuration
naming "gpt5" reaches a state whose active provider is not registered. -/
theorem c7_active_registered_counterexample :
    ReachableFrom { llmProvider := some "gpt5" } { active := "gpt5", fallback := true }
    ∧ providerNames.contains "gpt5" = false :=
  ⟨ReachableFrom.init, rfl⟩

/-- C7 (amended): when the configured provider name (default "openai")
is registered, every state reachable from construction through any
sequence of switch operations keeps `activeProviderName` registered;
the state holds exactly one active selection by construction. -/
theorem c7_active_registered (cfg : InitConfig) (st : ManagerState)
    (hreach : ReachableFrom cfg st)
    (hcfg : cfg.llmProvider.getD "openai" ∈ providerNames) :
    st.active ∈ providerNames := by
  induction hreach with
  | init => exact hcfg
  | step st avail name _ ih =>
    by_cases hm : name ∈ providerNames
    · by_cases ha : avail name = true
      · simp [setActiveProvider, hm, ha]
      · simpa [setActiveProvider, hm, ha] using ih
    · simpa [setActiveProvider, hm] using ih

/-- Witness for C7: from the default configuration, after one switch
attempt, the active name is still registered. -/
theorem c7_active_registered_witness :
    ((setActiveProvider (managerInit {}) (fun _ => true) "vllm").2).active ∈ providerNames :=
  c7_active_registered {} _
    (ReachableFrom.step _ (fun _ => true) "vllm" ReachableFrom.init) (by decide)

/-! ## C10 — the switch endpoint lower-cases the requested name -/

/-- C10: the HTTP switch endpoint behaves exactly as a switch to the
lower-cased request string — same resulting state, same success flag —
and whenever the switch succeeds the stored active name is the
lower-cased request, is registered, and is itself lower-case. -/
theorem c10_switch_endpoint_lowercases (st : ManagerState)
    (avail : String → Bool) (s : String) :
    (switch_llm_provider st avail s).2 = (setActiveProvider st avail (pyLowerStr s)).2
    ∧ (switch_llm_provider st avail s).1.success = (setActiveProvider st avail (pyLowerStr s)).1
    ∧ ((setActiveProvider st avail (pyLowerStr s)).1 = true →
        (switch_llm_provider st avail s).2.active = pyLowerStr s
        ∧ (switch_llm_provider st avail s).2.active ∈ providerNames
        ∧ pyLowerStr ((switch_llm_provider st avail s).2.active)
            = (switch_llm_provider st avail s).2.active) := by
  refine ⟨?_, ?_, ?_⟩
  · simp only [switch_llm_provider]
    split <;> rfl
  · simp only [switch_llm_provider]
    split <;> simp_all
  · intro h
    obtain ⟨hst, hmem⟩ := setActiveProvider_success st avail (pyLowerStr s) h
    have hact : (switch_llm_provider st avail s).2.active = pyLowerStr s := by
      simp only [switch_llm_provider]
      split <;> simp [hst]
    refine ⟨hact, ?_, ?_⟩
    · rw [hact]; exact hmem
    · rw [hact]; exact providerNames_lowercase _ hmem

/-- Witness for C10: the mixed-case request "OpenAI" is accepted when
the openai provider is available, and the stored name is "openai". -/
theorem c10_switch_endpoint_lowercases_witness :
    (switch_llm_provider { active := "ollama", fallback := true } (fun _ => true) "OpenAI").2.active
      = pyLowerStr "OpenAI"
    ∧ (switch_llm_provider { active := "ollama", fallback := true } (fun _ => true) "OpenAI").2.active
      ∈ providerNames :=
  ⟨((c10_switch_endpoint_lowercases _ _ _).2.2 (by decide)).1,
   ((c10_switch_endpoint_lowercases _ _ _).2.2 (by decide)).2.1⟩

/-! ## C5 — availability probes of the server backends -/

/-- C5 counterexample: for the vLLM provider, with the health GET
raising a network error and the fallback chat POST answering the
non-2xx status 400, `is_available()` returns true — so a network error
plus a non-2xx response does not force false, contrary to the claim. -/
theorem c5_probe_counterexample :
    vllmIsAvailable (some "http://h/v1/chat") (fun _ => none) (fun _ => some ⟨400⟩) = true := by
  rfl

/-- C5 (amended): Ollama is available iff the tags GET answers exactly
200 (errors and every other status give false); vLLM requires a
configured URL and is available iff the health GET answers exactly 200,
except that when the health GET raises, one fallback chat POST is tried
and any of the statuses 200, 400, 422 counts as available; every
remaining error is discarded into false. -/
theorem c5_probe_characterization :
    (∀ (apiUrl : Option String) (get : String → Option HttpResp),
      ollamaIsAvailable apiUrl get = true ↔ get (ollamaTagsUrl apiUrl) = some ⟨200⟩)
    ∧ (∀ (apiUrl : Option String) (get post : String → Option HttpResp),
      vllmIsAvailable apiUrl get post = true ↔
        (apiUrl.getD "" ≠ "" ∧
          (get (vllmHealthUrl (apiUrl.getD "")) = some ⟨200⟩ ∨
            (get (vllmHealthUrl (apiUrl.getD "")) = none ∧
              (post (apiUrl.getD "") = some ⟨200⟩ ∨ post (apiUrl.getD "") = some ⟨400⟩
                ∨ post (apiUrl.getD "") = some ⟨422⟩))))) := by
  constructor
  · intro apiUrl get
    cases hget : get (ollamaTagsUrl apiUrl) with
    | none => simp [ollamaIsAvailable, hget]
    | some r =>
      obtain ⟨n⟩ := r
      simp [ollamaIsAvailable, hget, HttpResp.mk.injEq]
  · intro apiUrl get post
    by_cases hu : apiUrl.getD "" = ""
    · simp [vllmIsAvailable, hu]
    · cases hget : get (vllmHealthUrl (apiUrl.getD "")) with
      | some r =>
        obtain ⟨n⟩ := r
        simp [vllmIsAvailable, hu, hget, HttpResp.mk.injEq]
      | none =>
        cases hpost : post (apiUrl.getD "") with
        | none => simp [vllmIsAvailable, hu, hget, hpost]
        | some r =>
          obtain ⟨n⟩ := r
          simp [vllmIsAvailable, hu, hget, hpost, HttpResp.mk.injEq, or_assoc]

/-- Witness for C5 (amended): a reachable Ollama server answering 200
is reported available; a vLLM provider without a URL is not. -/
theorem c5_probe_characterization_witness :
    ollamaIsAvailable none (fun _ => some ⟨200⟩) = true
    ∧ vllmIsAvailable none (fun _ => some ⟨200⟩) (fun _ => some ⟨200⟩) = false :=
  ⟨(c5_probe_characterization.1 none (fun _ => some ⟨200⟩)).mpr rfl,
   by
    have h := c5_probe_characterization.2 none (fun _ => some ⟨200⟩) (fun _ => some ⟨200⟩)
    by_contra hne
    have : vllmIsAvailable none (fun _ => some ⟨200⟩) (fun _ => some ⟨200⟩) = true := by
      revert hne
      cases vllmIsAvailable none (fun _ => some ⟨200⟩) (fun _ => some ⟨200⟩) <;> simp
    exact ((h.mp this).1 (by decide))⟩

/-! ## C9 — fallback disabled means errors propagate -/

/-- C9: with the fallback flag unset and the active provider registered
and available, a generation failure — and likewise an extraction /
parse failure of the reply — makes `interpret_command` raise
`HTTPException(500)` carrying the cause; the result is the same for
every possible rules section, i.e. the Rule Cascade is never evaluated. -/
theorem c9_no_silent_fallback (rulesF : List Char → Except PyErr RespBody)
    (st : ManagerState) (avail : String → Bool) (e : String)
    (content text : List Char)
    (hf : st.fallback = false) (hm : st.active ∈ providerNames)
    (ha : avail st.active = true) :
    interpretCore rulesF st avail (.error e) text
      = .httpError 500 ("LLM parsing failed: " ++ e)
    ∧ (pyJsonLoads (extractJson content) = none →
      interpretCore rulesF st avail (.ok content) text
        = .httpError 500 ("LLM parsing failed: " ++ jsonDecodeErrorMsg)) := by
  constructor
  · simp [interpretCore, llmAttempt, getActiveCheck, managerGenerate, hm, ha, hf]
  · intro hp
    simp [interpretCore, llmAttempt, getActiveCheck, managerGenerate, hm, ha, hf, hp]

/-- Witness for C9: a transport failure with fallback disabled becomes
a 500, and so does an unparsable reply. -/
theorem c9_no_silent_fallback_witness :
    interpretCore rulesFallback { active := "openai", fallback := false }
      (fun _ => true) (.error "boom") "zoom in".data
      = .httpError 500 ("LLM parsing failed: " ++ "boom")
    ∧ interpretCore rulesFallback { active := "openai", fallback := false }
      (fun _ => true) (.ok "no json here".data) "zoom in".data
      = .httpError 500 ("LLM parsing failed: " ++ jsonDecodeErrorMsg) :=
  ⟨(c9_no_silent_fallback rulesFallback _ _ "boom" "no json here".data _
      rfl (by decide) rfl).1,
   (c9_no_silent_fallback rulesFallback _ _ "boom" "no json here".data _
      rfl (by decide) rfl).2 rfl⟩

/-! ## C2 — the actions value on the LLM path is unvalidated -/

/-- C2 (code bug): when the active provider is available and the model
reply is the JSON document `null`, the extraction finds no bracketed
substring, `json.loads` of the whole reply succeeds, and the endpoint
returns `actions: null` — not a sequence — directly contradicting the
endpoint's own docstring and the claimed validation boundary. -/
theorem c2_llm_actions_can_be_null :
    interpret_command { active := "openai", fallback := true } (fun _ => true)
      (.ok "null".data) "show me delhi".data
      = .response 200 (RespBody.mk Json.null (some "llm") (some "openai") none)
    ∧ Json.isArr Json.null = false :=
  ⟨rfl, rfl⟩

/-! ## C8 — the zoom matchers -/

/-- C8: on the rules path (active provider unavailable), "zoom to 3x"
and "zoom in to 3x" both produce `zoom/to/3`, "zoom in by 3x" produces
`zoom/by/3`, and "zoom out by 2x" produces `zoom/by/1/2` — the "by"
direction maps N to N for "in" and to 1/N for "out". -/
theorem c8_zoom_rules :
    interpret_command { active := "openai", fallback := true } (fun _ => false)
      (.error "offline") "zoom to 3x".data
      = .response 200 (ruleResp (.obj [("type", .str "zoom"), ("mode", .str "to"), ("value", .num 3)]))
    ∧ interpret_command { active := "openai", fallback := true } (fun _ => false)
      (.error "offline") "zoom in to 3x".data
      = .response 200 (ruleResp (.obj [("type", .str "zoom"), ("mode", .str "to"), ("value", .num 3)]))
    ∧ interpret_command { active := "openai", fallback := true } (fun _ => false)
      (.error "offline") "zoom in by 3x".data
      = .response 200 (ruleResp (.obj [("type", .str "zoom"), ("mode", .str "by"), ("value", .num 3)]))
    ∧ interpret_command { active := "openai", fallback := true } (fun _ => false)
      (.error "offline") "zoom out by 2x".data
      = .response 200 (ruleResp (.obj [("type", .str "zoom"), ("mode", .str "by"), ("value", .num (1/2))])) :=
  ⟨rfl, rfl, rfl, rfl⟩

/-! ## C3 — the cascade can raise on a numeric capture -/

/-- C3 counterexample: the lat/lon matcher matches
"zoom to lat ., lon ." with both numeric groups capturing ".", and
`float(".")` raises `ValueError`, which escapes the cascade uncaught —
there is no fall-through to later matchers. -/
theorem c3_cascade_raises_counterexample :
    interpret_command { active := "openai", fallback := true } (fun _ => false)
      (.error "offline") "zoom to lat ., lon .".data = .pyExc .valueError :=
  rfl

/-- No matcher of the cascade matches the (lower-cased) text. -/
abbrev noRuleMatches (t : List Char) : Prop :=
  reSearch pZoomTo t = none ∧ reSearch pZoomInOutTo t = none
  ∧ reSearch pZoomInOutBy t = none ∧ reSearch pZoomOut t = none
  ∧ reSearch pShowFullMap t = none ∧ reSearch pReset t = none
  ∧ reSearch pZoomLatLon t = none ∧ reSearch pGotoStation t = none
  ∧ reSearch pTrip t = none ∧ reSearch pMoveCamera t = none
  ∧ reSearch pCameraOffset t = none ∧ reSearch pGotoLocation t = none
  ∧ reSearch pBareCoords t = none

/-- A text matched by no matcher reaches the unrecognized branch. -/
theorem rulesFallback_unmatched (t : List Char) (h : noRuleMatches t) :
    rulesFallback t = .ok unparsedResp := by
  obtain ⟨h1, h2, h3, h4, h5, h6, h7, h8, h9, h10, h11, h12, h13⟩ := h
  simp [rulesFallback, rulesZoomInOutTo, rulesZoomBy, rulesZoomOut, rulesReset,
    rulesZoomLatLon, rulesGotoStation, rulesTrip, rulesMoveCamera,
    rulesCameraOffset, rulesGotoLocation, rulesBareCoords,
    h1, h2, h3, h4, h5, h6, h7, h8, h9, h10, h11, h12, h13]

/-- C3 (amended): a matched matcher whose numeric capture fails
`float()` raises a `ValueError` that propagates out of the cascade
(there is no fall-through to later matchers); an input matched by no
matcher still produces the normal empty result rather than a failure. -/
theorem c3_cascade_unmatched_is_empty (t : List Char) (h : noRuleMatches t) :
    rulesFallback t = .ok unparsedResp ∧ unparsedResp.actions = Json.arr [] :=
  ⟨rulesFallback_unmatched t h, rfl⟩

/-- Witness for C3 (amended): "hello there" matches no rule and yields
the normal empty result. -/
theorem c3_cascade_unmatched_is_empty_witness :
    rulesFallback "hello there".data = .ok unparsedResp :=
  (c3_cascade_unmatched_is_empty "hello there".data
    ⟨rfl, rfl, rfl, rfl, rfl, rfl, rfl, rfl, rfl, rfl, rfl, rfl, rfl⟩).1

/-! ## C4 — the unmatched result of `interpret_command` -/

/-- C4 counterexample: for "asdkjasd nonsense" on the rules path the
endpoint does answer 200 with an empty action list and the could-not-
parse marker, but the body carries no `method` key at all (main.py:639)
— so the method discriminator is not `"rules"` as claimed. -/
theorem c4_unmatched_counterexample :
    interpret_command { active := "openai", fallback := true } (fun _ => false)
      (.error "offline") "asdkjasd nonsense".data = .response 200 unparsedResp
    ∧ unparsedResp.method = none :=
  ⟨rfl, rfl⟩

/-- C4 (amended): every input matched by no matcher yields, for any
generation oracle, a non-error 200 result with an empty action
sequence and the non-fatal "Could not parse command" marker — but with
no method key (the claim's `method = "rules"` does not hold here). -/
theorem c4_unmatched_normal_result (gen : Except String (List Char))
    (text : List Char) (h : noRuleMatches (pyLower (pyStrip text))) :
    interpret_command { active := "openai", fallback := true } (fun _ => false)
      gen text = .response 200 unparsedResp := by
  simp [interpret_command, interpretCore, llmAttempt, getActiveCheck, runRules,
    rulesFallback_unmatched _ h, providerNames]

/-- Witness for C4 (amended): a nonsense input produces the empty
marked result through the whole endpoint. -/
theorem c4_unmatched_normal_result_witness :
    interpret_command { active := "openai", fallback := true } (fun _ => false)
      (.error "offline") "blah blah".data = .response 200 unparsedResp :=
  c4_unmatched_normal_result (.error "offline") "blah blah".data
    ⟨rfl, rfl, rfl, rfl, rfl, rfl, rfl, rfl, rfl, rfl, rfl, rfl, rfl⟩

/-! ## C1 — JSON extraction is a greedy regex, not a balanced scan

The extraction regex `(\[.*\])` is greedy: it captures from the first
`[` of the reply to the last `]`.  A balanced-bracket scan returning
the first top-level array gives a different answer as soon as a second
bracketed fragment follows the array. -/

/-- C1 counterexample: on the reply "[1] and [2]" the balanced scan of
the spec extracts the first array "[1]", but the source's greedy regex
extracts "[1] and [2]" — the two extraction procedures differ. -/
theorem c1_extraction_counterexample :
    specFirstJsonArray "[1] and [2]".data = some "[1]".data
    ∧ extractJson "[1] and [2]".data = "[1] and [2]".data
    ∧ ("[1] and [2]".data == "[1]".data) = false :=
  ⟨rfl, rfl, rfl⟩

/-- `. ` (dot-all) consumes exactly one character. -/
theorem matchRE_dotAll (s : List Char) :
    matchRE clsDotAll s = match s with | [] => [] | _ :: t => [(t, [])] := by
  cases s <;> simp [matchRE, clsDotAll]

/-- Greedy `.*` enumerates the suffixes of `s` longest-consumed first,
i.e. the reversed tails of `s`. -/
theorem starLoop_dotAll (f : Nat) (s : List Char) (h : s.length ≤ f) :
    starLoop (matchRE clsDotAll) false f s
      = (List.tails s).reverse.map (fun u => (u, ([] : Caps))) := by
  induction f generalizing s with
  | zero =>
    have : s = [] := List.eq_nil_of_length_eq_zero (Nat.le_zero.mp h)
    subst this
    rfl
  | succ f ih =>
    cases s with
    | nil => rfl
    | cons c t =>
      have ht : t.length ≤ f := Nat.le_of_succ_le_succ h
      simp only [starLoop, matchRE_dotAll]
      rw [List.filter_cons_of_pos (by simp)]
      simp [ih t ht, List.tails_cons]

/-- A single `]` matcher. -/
def closeBracketHits : List Char → List (List Char × Caps)
  | [] => []
  | c :: v => if c == ']' then [(v, [])] else []

/-- `matchRE` on the literal `]` agrees with `closeBracketHits`. -/
theorem matchRE_closeBracket (u : List Char) :
    matchRE (chrRE ']') u = closeBracketHits u := by
  cases u <;> rfl

/-- Fuse the capture-free pair map into the flat map. -/
theorem flatMap_closeBracket (l : List (List Char)) :
    ((l.map (fun u => (u, ([] : Caps)))).flatMap
        (fun pr => (matchRE (chrRE ']') pr.1).map (fun qr => (qr.1, qr.2 ++ pr.2))))
      = l.flatMap closeBracketHits := by
  induction l with
  | nil => rfl
  | cons u l ih =>
    simp only [List.map_cons, List.flatMap_cons, ih, matchRE_closeBracket]
    congr 1
    cases u with
    | nil => rfl
    | cons c v =>
      by_cases hc : c = ']' <;> simp [closeBracketHits, hc]

/-- No suffix of a `]`-free string produces a hit. -/
theorem flatMap_closeBracket_free (suf : List Char) (h : ']' ∉ suf) :
    (List.tails suf).reverse.flatMap closeBracketHits = [] := by
  rw [List.flatMap_eq_nil_iff]
  intro u hu
  rw [List.mem_reverse, List.mem_tails] at hu
  cases u with
  | nil => rfl
  | cons c v =>
    have hc : c ≠ ']' := fun hc => h (hu.subset (by simp [hc]))
    simp [closeBracketHits, hc]

/-- The highest-priority way to run `.*` then `]` over
`mid ++ ']' :: suf` (with `]`-free `suf`) stops at that last `]`. -/
theorem flatMap_closeBracket_last (mid suf : List Char) (h : ']' ∉ suf) :
    ∃ junk, (List.tails (mid ++ ']' :: suf)).reverse.flatMap closeBracketHits
      = (suf, ([] : Caps)) :: junk := by
  induction mid with
  | nil =>
    refine ⟨[], ?_⟩
    rw [List.nil_append, List.tails_cons, List.reverse_cons, List.flatMap_append,
      flatMap_closeBracket_free suf h]
    rfl
  | cons c mid ih =>
    obtain ⟨junk, hj⟩ := ih
    refine ⟨junk ++ closeBracketHits (c :: (mid ++ ']' :: suf)), ?_⟩
    rw [List.cons_append, List.tails_cons, List.reverse_cons, List.flatMap_append, hj]
    simp

/-- Running `.*` then `]` over `mid ++ ']' :: suf` first yields the
match that consumes up to the final `]`. -/
theorem matchRE_starClose (mid suf : List Char) (h : ']' ∉ suf) :
    ∃ junk, matchRE (.seq (.star false clsDotAll) (chrRE ']')) (mid ++ ']' :: suf)
      = (suf, ([] : Caps)) :: junk := by
  obtain ⟨junk, hj⟩ := flatMap_closeBracket_last mid suf h
  refine ⟨junk, ?_⟩
  have hstar : matchRE (.star false clsDotAll) (mid ++ ']' :: suf)
      = (List.tails (mid ++ ']' :: suf)).reverse.map (fun u => (u, ([] : Caps))) := by
    show starLoop (matchRE clsDotAll) false ((mid ++ ']' :: suf).length + 1)
      (mid ++ ']' :: suf) = _
    exact starLoop_dotAll _ _ (Nat.le_succ _)
  show (matchRE (.star false clsDotAll) (mid ++ ']' :: suf)).flatMap
    (fun pr => (matchRE (chrRE ']') pr.1).map (fun qr => (qr.1, qr.2 ++ pr.2))) = _
  rw [hstar, flatMap_closeBracket, hj]

/-- Taking the length of the left part plus `n` splits over an append. -/
theorem take_append_len {α : Type} (l₁ l₂ : List α) (n : Nat) :
    (l₁ ++ l₂).take (l₁.length + n) = l₁ ++ l₂.take n := by
  induction l₁ with
  | nil => simp
  | cons a l ih => simp [Nat.succ_add, ih]

/-- The extraction pattern, started exactly at the `[` that opens the
array, captures from that `[` to the last `]` of the string. -/
theorem matchRE_pJsonArr_at (mid suf : List Char) (h : ']' ∉ suf) :
    ∃ junk, matchRE pJsonArr ('[' :: (mid ++ ']' :: suf))
      = (suf, [(1, '[' :: (mid ++ [']']))]) :: junk := by
  obtain ⟨junk, hj⟩ := matchRE_starClose mid suf h
  refine ⟨junk.map (fun pr =>
    (pr.1, (1, ('[' :: (mid ++ ']' :: suf)).take
      (('[' :: (mid ++ ']' :: suf)).length - pr.1.length)) :: pr.2)), ?_⟩
  have hbr : matchRE (chrRE '[') ('[' :: (mid ++ ']' :: suf))
      = [(mid ++ ']' :: suf, [])] := by
    simp [matchRE, chrRE]
  have hseq : matchRE (.seq (chrRE '[') (.seq (.star false clsDotAll) (chrRE ']')))
      ('[' :: (mid ++ ']' :: suf)) = (suf, ([] : Caps)) :: junk := by
    show (matchRE (chrRE '[') ('[' :: (mid ++ ']' :: suf))).flatMap
      (fun pr => (matchRE (.seq (.star false clsDotAll) (chrRE ']')) pr.1).map
        (fun qr => (qr.1, qr.2 ++ pr.2))) = _
    rw [hbr, List.flatMap_cons, List.flatMap_nil, List.append_nil, hj]
    simp
  show (matchRE (.seq (chrRE '[') (.seq (.star false clsDotAll) (chrRE ']')))
      ('[' :: (mid ++ ']' :: suf))).map (fun pr =>
        (pr.1, (1, ('[' :: (mid ++ ']' :: suf)).take
          (('[' :: (mid ++ ']' :: suf)).length - pr.1.length)) :: pr.2)) = _
  rw [hseq, List.map_cons]
  congr 2
  have hlen : ('[' :: (mid ++ ']' :: suf)).length - suf.length = mid.length + 2 := by
    simp only [List.length_cons, List.length_append]
    omega
  rw [hlen]
  have hstep : ('[' :: (mid ++ ']' :: suf)).take (mid.length + 2)
      = '[' :: (mid ++ ']' :: suf).take (mid.length + 1) := rfl
  rw [hstep]
  have htake : (mid ++ ']' :: suf).take (mid.length + 1) = mid ++ [']'] := by
    rw [take_append_len mid (']' :: suf) 1]
    rfl
  rw [htake]

/-- One step of `re.search` when the pattern does not match here. -/
theorem reSearch_cons_of_nomatch (r : RE) (c : Char) (t : List Char)
    (h : matchRE r (c :: t) = []) : reSearch r (c :: t) = reSearch r t := by
  simp [reSearch, h]

/-- `re.search` answers the head captures where the pattern matches. -/
theorem reSearch_of_match (r : RE) (s : List Char) (pr : List Char × Caps)
    (l : List (List Char × Caps)) (h : matchRE r s = pr :: l) :
    reSearch r s = some pr.2 := by
  cases s <;> simp [reSearch, h]

/-- The extraction pattern cannot match at a character other than `[`. -/
theorem matchRE_pJsonArr_nomatch (c : Char) (t : List Char) (h : c ≠ '[') :
    matchRE pJsonArr (c :: t) = [] := by
  have hc : (c == '[') = false := by simp [h]
  show ((matchRE (chrRE '[') (c :: t)).flatMap
    (fun pr => (matchRE (.seq (.star false clsDotAll) (chrRE ']')) pr.1).map
      (fun qr => (qr.1, qr.2 ++ pr.2)))).map _ = _
  have : matchRE (chrRE '[') (c :: t) = [] := by
    simp [matchRE, chrRE, hc]
  rw [this]
  rfl

/-- `re.search` of the extraction pattern skips over a `[`-free part of
the reply. -/
theorem reSearch_pJsonArr_skip (pre rest : List Char) (h : '[' ∉ pre) :
    reSearch pJsonArr (pre ++ rest) = reSearch pJsonArr rest := by
  induction pre with
  | nil => rfl
  | cons c pre ih =>
    have hc : c ≠ '[' := fun hc => h (by simp [hc])
    have hpre : '[' ∉ pre := fun hm => h (by simp [hm])
    rw [List.cons_append,
      reSearch_cons_of_nomatch pJsonArr c _ (matchRE_pJsonArr_nomatch c _ hc)]
    exact ih hpre

/-- C1 (amended): the extraction takes the substring from the first `[`
of the reply to the last `]` (the whole reply when there is no such
pair).  In particular a reply `pre ++ arr ++ suf` whose prose `pre`
contains no `[` and whose trailer `suf` contains no `]` — e.g. one JSON
array wrapped in prose or a fenced block, with arbitrary nested
brackets inside the array — extracts exactly `arr`. -/
theorem c1_extraction_greedy (pre mid suf : List Char)
    (hpre : '[' ∉ pre) (hsuf : ']' ∉ suf) :
    extractJson (pre ++ '[' :: (mid ++ ']' :: suf)) = '[' :: (mid ++ [']']) := by
  obtain ⟨junk, hm⟩ := matchRE_pJsonArr_at mid suf hsuf
  have hsearch : reSearch pJsonArr (pre ++ '[' :: (mid ++ ']' :: suf))
      = some [(1, '[' :: (mid ++ [']']))] := by
    rw [reSearch_pJsonArr_skip pre _ hpre, reSearch_of_match pJsonArr _ _ _ hm]
  simp [extractJson, hsearch, capGroup]

/-- Witness for C1 (amended): a reply with the array inside a fenced
block, with nested coordinate arrays, extracts exactly the array. -/
theorem c1_extraction_greedy_witness :
    extractJson ("Here you go: ```json\n".data
        ++ '[' :: ("\x7b\"type\":\"pan\",\"c\":[1,[2,3]]\x7d".data ++ ']' :: "``` done".data))
      = '[' :: ("\x7b\"type\":\"pan\",\"c\":[1,[2,3]]\x7d".data ++ [']']) :=
  c1_extraction_greedy "Here you go: ```json\n".data
    "\x7b\"type\":\"pan\",\"c\":[1,[2,3]]\x7d".data "``` done".data
    (by decide) (by decide)
